import Mathlib

/-!
Verification of the scene-graph lifecycle and camera-framing core of
`src/frontend/3d-frontend/public/Three.js/js/SceneManager.js`.

The `SceneManager` class holds a Three.js scene (a rose tree of objects),
a perspective camera, orbit controls and a renderer.  This development
embeds the state the spec reasons about — the scene graph with its
permanent furniture (lights, grid helper, axes helper) and content nodes,
the camera pose, the controls target, and the disposal of GPU resources —
and proves the spec's claims about `clearScene`, `addToScene`, `reset`,
`setTopView`, `setPerspectiveView`, `focusOnModel` and `centerModel`.

Modelling conventions, justified against the source and the Three.js
library contracts it calls into:

* Coordinates are rationals.  The source only adds, subtracts, halves and
  doubles coordinates, so `ℚ` reproduces the arithmetic exactly.
* A node's transform is its `position` (the only transform component the
  source reads or writes).  World position of a node is the sum of the
  positions on its path from the root.
* `Box3` models a non-empty axis-aligned box; the library's empty box
  (`min = +∞`, `max = −∞`) is modelled as `Option.none`.  `Box3.getCenter`
  and `Box3.getSize` return the origin on an empty box, exactly as the
  library does.
* `geometry.computeBoundingBox()` computes the box of the geometry's
  vertex data and stores it in the geometry's `boundingBox` attribute.
  Nothing in the program ever writes vertex data, so a filled cache always
  equals the box recomputed from the vertex data; the cache is therefore
  modelled as a `Bool` flag (`hasBoundingBox`) next to the vertex-data box
  (`localBox`), and filling it never changes the value it would hold.
* `Box3.setFromObject` / `Box3.expandByObject` expand by the world-space
  boxes of the object and all its descendants that own a geometry, filling
  each missing `boundingBox` cache along the way (library behaviour); a
  node without a geometry contributes nothing.  A Three.js `Mesh` always
  owns a geometry, so the geometry-less-mesh corner is unreachable in the
  source; it is modelled as contributing nothing, the same as the
  library's `expandByObject`.
* `controls.update()` recomputes interaction state for the next render
  tick; it does not reassign the modelled fields (camera position, look-at
  point, controls target), so it is a no-op on the modelled state.
  `renderer.clear()` and `console` logging are likewise outside the model.
* The camera's `lookAtTarget` records the point last passed to
  `camera.lookAt`.
* The source defines `clearScene` twice; at class-evaluation time the
  later definition (lines 274–328, the permanent-preserving one) wins and
  is the one embedded here, as the spec also notes.
-/

/-- A 3D point/vector with rational coordinates. -/
structure Vec3 where
  x : ℚ
  y : ℚ
  z : ℚ
deriving DecidableEq

def Vec3.origin : Vec3 := ⟨0, 0, 0⟩

def Vec3.add (a b : Vec3) : Vec3 := ⟨a.x + b.x, a.y + b.y, a.z + b.z⟩

/-- A non-empty axis-aligned box (`THREE.Box3` with `min ≤ max`); the
library's empty box is represented as `Option.none` at use sites. -/
structure Box3 where
  min : Vec3
  max : Vec3
deriving DecidableEq

def Box3.union (a b : Box3) : Box3 :=
  ⟨⟨Min.min a.min.x b.min.x, Min.min a.min.y b.min.y, Min.min a.min.z b.min.z⟩,
   ⟨Max.max a.max.x b.max.x, Max.max a.max.y b.max.y, Max.max a.max.z b.max.z⟩⟩

def Box3.translate (b : Box3) (v : Vec3) : Box3 :=
  ⟨b.min.add v, b.max.add v⟩

/-- `Box3.getCenter`: midpoint of `min` and `max`. -/
def Box3.getCenter (b : Box3) : Vec3 :=
  ⟨(b.min.x + b.max.x) / 2, (b.min.y + b.max.y) / 2, (b.min.z + b.max.z) / 2⟩

/-- `Box3.getSize`: per-axis extent `max − min`. -/
def Box3.getSize (b : Box3) : Vec3 :=
  ⟨b.max.x - b.min.x, b.max.y - b.min.y, b.max.z - b.min.z⟩

/-- Union of a possibly-empty box with a possibly-empty box
(`Box3.union`; the library's empty box is the identity of union). -/
def unionO : Option Box3 → Option Box3 → Option Box3
  | none, b => b
  | some a, none => some a
  | some a, some b => some (a.union b)

/-- `Box3.getCenter` on a possibly-empty box: the library returns the
origin for the empty box. -/
def centerOfOpt : Option Box3 → Vec3
  | none => Vec3.origin
  | some b => b.getCenter

/-- `Box3.getSize` on a possibly-empty box: the library returns the
origin for the empty box. -/
def sizeOfOpt : Option Box3 → Vec3
  | none => Vec3.origin
  | some b => b.getSize

/-- A material with its resource handle and an optional owned texture
handle (`material.map`). -/
structure Material where
  id : Nat
  map : Option Nat
deriving DecidableEq

/-- The `object.material` field: absent, a single material, or an ordered
collection of materials (the source branches on `Array.isArray`). -/
inductive MatField where
  | undef
  | one (m : Material)
  | many (ms : List Material)
deriving DecidableEq

/-- A geometry: resource handle, box of the vertex data (`localBox`), and
whether the `boundingBox` attribute is filled.  The program never writes
vertex data, so a filled cache always holds exactly `localBox`; only its
presence needs to be tracked. -/
structure Geometry where
  id : Nat
  localBox : Box3
  hasBoundingBox : Bool
deriving DecidableEq

/-- Runtime category of a scene object, replacing the source's
`instanceof THREE.Light / GridHelper / AxesHelper` and `.isMesh` checks
(each object has exactly one class in the source). -/
inductive Tag where
  | light
  | grid
  | axes
  | mesh
  | group
deriving DecidableEq

/-- A scene-graph object (`THREE.Object3D`): identity, category, local
position, optional geometry, material field, and child objects. -/
inductive Obj where
  | mk (id : Nat) (tag : Tag) (position : Vec3) (geom : Option Geometry)
      (material : MatField) (children : List Obj)

def Obj.id : Obj → Nat
  | .mk i _ _ _ _ _ => i

def Obj.tag : Obj → Tag
  | .mk _ t _ _ _ _ => t

def Obj.position : Obj → Vec3
  | .mk _ _ p _ _ _ => p

def Obj.geom : Obj → Option Geometry
  | .mk _ _ _ g _ _ => g

def Obj.material : Obj → MatField
  | .mk _ _ _ _ m _ => m

def Obj.children : Obj → List Obj
  | .mk _ _ _ _ _ cs => cs

mutual
def Obj.beq : Obj → Obj → Bool
  | .mk i t p g m cs, .mk i2 t2 p2 g2 m2 cs2 =>
    i == i2 && t == t2 && p == p2 && g == g2 && m == m2 && beqList cs cs2
def beqList : List Obj → List Obj → Bool
  | [], [] => true
  | c :: cs, d :: ds => Obj.beq c d && beqList cs ds
  | _, _ => false
end

mutual
theorem Obj.beq_iff : ∀ a b : Obj, Obj.beq a b = true ↔ a = b
  | .mk i t p g m cs, .mk i2 t2 p2 g2 m2 cs2 => by
    simp only [Obj.beq, Bool.and_eq_true, beq_iff_eq, Obj.mk.injEq]
    constructor
    · rintro ⟨⟨⟨⟨⟨h1, h2⟩, h3⟩, h4⟩, h5⟩, h6⟩
      exact ⟨h1, h2, h3, h4, h5, (beqList_iff cs cs2).1 h6⟩
    · rintro ⟨h1, h2, h3, h4, h5, h6⟩
      exact ⟨⟨⟨⟨⟨h1, h2⟩, h3⟩, h4⟩, h5⟩, (beqList_iff cs cs2).2 h6⟩
theorem beqList_iff : ∀ xs ys : List Obj, beqList xs ys = true ↔ xs = ys
  | [], [] => by simp [beqList]
  | [], _ :: _ => by simp [beqList]
  | _ :: _, [] => by simp [beqList]
  | c :: cs, d :: ds => by
    simp only [beqList, Bool.and_eq_true, List.cons.injEq]
    rw [Obj.beq_iff, beqList_iff]
end

instance : DecidableEq Obj := fun a b =>
  decidable_of_iff (Obj.beq a b = true) (Obj.beq_iff a b)

/-- `object.isMesh` (true exactly for `THREE.Mesh` instances). -/
def isMesh (o : Obj) : Bool := o.tag == .mesh

/-- `object instanceof THREE.GridHelper`. -/
def isGridHelper (o : Obj) : Bool := o.tag == .grid

/-- `object instanceof THREE.AxesHelper`. -/
def isAxesHelper (o : Obj) : Bool := o.tag == .axes

/-- `object instanceof THREE.Light`. -/
def isLight (o : Obj) : Bool := o.tag == .light

/-- The filter of `focusOnModel` (line 177):
`object.isMesh && !(object instanceof GridHelper) && !(object instanceof AxesHelper)`. -/
def qualFocus (o : Obj) : Bool := isMesh o && !isGridHelper o && !isAxesHelper o

/-- The filter of `centerModel` (lines 225–228 and 243–246): the
`focusOnModel` filter plus `!(object instanceof THREE.Light)`. -/
def qualCenter (o : Obj) : Bool :=
  isMesh o && !isGridHelper o && !isAxesHelper o && !isLight o

/-- The partition predicate of `clearScene` (lines 289–291): lights, grid
helpers and axes helpers are preserved; everything else is content. -/
def isPermanent (o : Obj) : Bool := isLight o || isGridHelper o || isAxesHelper o

/-- Resource handles released for one material (lines 308–315): the owned
texture (`material.map`) first, then the material itself. -/
def disposeMaterial (m : Material) : List Nat :=
  (match m.map with | some t => [t] | none => []) ++ [m.id]

/-- Resource handles released by the disposal block of `clearScene`
(lines 300–316) for one removed object: its geometry if present, then its
material(s); missing sub-resources are skipped. -/
def disposeResourceIds (o : Obj) : List Nat :=
  (match o.geom with | some g => [g.id] | none => []) ++
  (match o.material with
   | .undef => []
   | .one m => disposeMaterial m
   | .many ms => ms.flatMap disposeMaterial)

mutual
/-- `traverse` collection over one object: the object itself (preorder),
then its descendants, keeping those satisfying `q`. -/
def obCollect (q : Obj → Bool) : Obj → List Obj
  | .mk i t p g m cs =>
    (if q (.mk i t p g m cs) then [Obj.mk i t p g m cs] else []) ++ collectList q cs
def collectList (q : Obj → Bool) : List Obj → List Obj
  | [] => []
  | c :: cs => obCollect q c ++ collectList q cs
end

mutual
/-- All nodes of a subtree in preorder. -/
def obNodes : Obj → List Obj
  | .mk i t p g m cs => Obj.mk i t p g m cs :: nodesList cs
def nodesList : List Obj → List Obj
  | [] => []
  | c :: cs => obNodes c ++ nodesList cs
end

mutual
/-- Preorder list of `(q node, node.position)` pairs of a subtree. -/
def obPosTags (q : Obj → Bool) : Obj → List (Bool × Vec3)
  | .mk i t p g m cs => (q (.mk i t p g m cs), p) :: posTagsList q cs
def posTagsList (q : Obj → Bool) : List Obj → List (Bool × Vec3)
  | [] => []
  | c :: cs => obPosTags q c ++ posTagsList q cs
end

def Geometry.eraseCache (g : Geometry) : Geometry := { g with hasBoundingBox := false }

mutual
/-- Projection forgetting every `boundingBox` cache flag in a subtree. -/
def eraseCacheObj : Obj → Obj
  | .mk i t p g m cs => .mk i t p (g.map Geometry.eraseCache) m (eraseCacheList cs)
def eraseCacheList : List Obj → List Obj
  | [] => []
  | c :: cs => eraseCacheObj c :: eraseCacheList cs
end

mutual
/-- The bounding-volume pass of `focusOnModel` (lines 184–190) and
`centerModel` (lines 218–232): the preorder traversal calls
`computeBoundingBox` / `setFromObject` / `expandByObject` on each node
satisfying `q`, so every geometry inside the subtree of a qualifying node
has its `boundingBox` cache filled (`anc` records being inside such a
subtree) and contributes its world-space box to the running union.
`base` is the world position of the parent.  Returns the updated object
and the accumulated box. -/
def boundsPassObj (q : Obj → Bool) (base : Vec3) (anc : Bool) :
    Obj → Obj × Option Box3
  | .mk i t p g m cs =>
    let act := anc || q (.mk i t p g m cs)
    let wp := base.add p
    let gbox : Option Box3 :=
      match g with
      | some geo => if act then some (geo.localBox.translate wp) else none
      | none => none
    let g2 : Option Geometry :=
      match g with
      | some geo => if act then some { geo with hasBoundingBox := true } else some geo
      | none => none
    let r := boundsPassList q wp act cs
    (Obj.mk i t p g2 m r.1, unionO gbox r.2)
def boundsPassList (q : Obj → Bool) (base : Vec3) (anc : Bool) :
    List Obj → List Obj × Option Box3
  | [] => ([], none)
  | c :: cs =>
    let rc := boundsPassObj q base anc c
    let rs := boundsPassList q base anc cs
    (rc.1 :: rs.1, unionO rc.2 rs.2)
end

mutual
/-- The translation pass of `centerModel` (lines 242–251): every node
satisfying `q` gets `position.x -= cx` and `position.z -= cz`, with the
`y` coordinate kept as is; other nodes are untouched; all depths are
visited (`traverse`). -/
def shiftObj (q : Obj → Bool) (cx cz : ℚ) : Obj → Obj
  | .mk i t p g m cs =>
    let p2 := if q (.mk i t p g m cs) then Vec3.mk (p.x - cx) p.y (p.z - cz) else p
    Obj.mk i t p2 g m (shiftList q cx cz cs)
def shiftList (q : Obj → Bool) (cx cz : ℚ) : List Obj → List Obj
  | [] => []
  | c :: cs => shiftObj q cx cz c :: shiftList q cx cz cs
end

/-- The scene (`THREE.Scene`): background color and direct children. -/
structure Scene where
  background : Nat
  children : List Obj
deriving DecidableEq

/-- Camera pose: `position`, and the point last passed to `lookAt`. -/
structure CameraS where
  position : Vec3
  lookAtTarget : Vec3
deriving DecidableEq

/-- The orbit controls collaborator, of which the source reads and writes
only `target` (plus the modelled-as-no-op `update()`). -/
structure ControlsS where
  target : Vec3
deriving DecidableEq

/-- The `SceneManager` state: the scene handle (`this.scene`, which the
source guards against being absent), the camera, the controls, and two
append-only logs recording disposal — the objects passed through the
disposal block, and every released resource handle. -/
structure SM where
  scene : Option Scene
  camera : CameraS
  controls : ControlsS
  releasedNodes : List Nat
  disposedResources : List Nat
deriving DecidableEq

/-- Direct children of the current scene (empty when the handle is absent). -/
def sceneChildren (st : SM) : List Obj :=
  match st.scene with
  | some sc => sc.children
  | none => []

/-- The grid helper created by `initScene` / `initSceneElements`
(`new THREE.GridHelper(20, 20, …)`); its own resource handles are never
touched by any modelled operation, so they are left unmodelled. -/
def gridHelperNode : Obj := .mk 1 .grid Vec3.origin none .undef []

/-- The axes helper (`new THREE.AxesHelper(0)`). -/
def axesHelperNode : Obj := .mk 2 .axes Vec3.origin none .undef []

/-- The ambient light of `initLights`. -/
def ambientLightNode : Obj := .mk 3 .light Vec3.origin none .undef []

/-- The directional light of `initLights` (`position.set(10, 20, 15)`). -/
def directionalLightNode : Obj := .mk 4 .light ⟨10, 20, 15⟩ none .undef []

/-- The furniture added by `initSceneElements` (grid, axes, then
`initLights`: ambient and directional light), in insertion order. -/
def defaultPermanentChildren : List Obj :=
  [gridHelperNode, axesHelperNode, ambientLightNode, directionalLightNode]

/-- `initSceneElements` (lines 261–272): appends the grid helper, the axes
helper and the two lights to the current scene. -/
def initSceneElements (sc : Scene) : Scene :=
  { sc with children := sc.children ++ defaultPermanentChildren }

/-- The default background color `0xf0f0f0` set by `initScene` and by the
recovery branch of `clearScene`. -/
def defaultBackground : Nat := 0xf0f0f0

/-- State after the constructor: `initScene` (background, grid, axes) and
`initLights` populate the scene; `initCamera`'s pose `(50,50,50)` looking
at `(50,0,0)` is immediately overridden by the constructor's final
`setPerspectiveView()` call; the orbit controls start targeting the
origin. -/
def initState : SM :=
  { scene := some { background := defaultBackground,
                    children := defaultPermanentChildren },
    camera := { position := ⟨10, 10, 10⟩, lookAtTarget := Vec3.origin },
    controls := { target := Vec3.origin },
    releasedNodes := [],
    disposedResources := [] }

/-- `THREE.Object3D.add`: an object already in the graph is first removed
from its previous parent, so adding appends without duplicating. -/
def sceneAdd (sc : Scene) (o : Obj) : Scene :=
  { sc with children := sc.children.filter (fun c => c.id != o.id) ++ [o] }

/-- `addToScene` (lines 210–212). The scene handle is always present when
it is called (the constructor installs it and no operation removes it). -/
def addToScene (st : SM) (o : Obj) : SM :=
  match st.scene with
  | some sc => { st with scene := some (sceneAdd sc o) }
  | none => st

/-- `clearScene` (lines 274–328, the authoritative later definition; the
earlier one at lines 105–141 is overridden at class-evaluation time).
If the scene handle is absent, recreate a scene with the default
background and run `initSceneElements`.  Otherwise partition the direct
children into `lightsAndHelpers` and `objectsToRemove`, dispose each
removed object's geometry and material(s) and remove it, and if no lights
or helpers were found, recreate the default furniture. -/
def clearScene (st : SM) : SM :=
  match st.scene with
  | none =>
    let fresh : Scene := { background := defaultBackground, children := [] }
    { st with scene := some (initSceneElements fresh) }
  | some sc =>
    let lightsAndHelpers := sc.children.filter (fun o => isPermanent o)
    let objectsToRemove := sc.children.filter (fun o => !isPermanent o)
    let cleared : Scene := { sc with children := lightsAndHelpers }
    let finalScene :=
      if lightsAndHelpers.length = 0 then initSceneElements cleared else cleared
    { st with
      scene := some finalScene,
      releasedNodes := st.releasedNodes ++ objectsToRemove.map Obj.id,
      disposedResources :=
        st.disposedResources ++ objectsToRemove.flatMap disposeResourceIds }

/-- `setTopView` (lines 157–161): `camera.position.set(0, 20, 0)`,
`camera.lookAt(0, 0, 0)`, `controls.update()`. -/
def setTopView (st : SM) : SM :=
  { st with camera := { position := ⟨0, 20, 0⟩, lookAtTarget := Vec3.origin } }

/-- `setPerspectiveView` (lines 163–167): `camera.position.set(10,10,10)`,
`camera.lookAt(0, 0, 0)`, `controls.update()`. -/
def setPerspectiveView (st : SM) : SM :=
  { st with camera := { position := ⟨10, 10, 10⟩, lookAtTarget := Vec3.origin } }

/-- `resetCamera` (lines 169–171). -/
def resetCamera (st : SM) : SM := setPerspectiveView st

/-- `reset` (lines 143–155): `clearScene`, `resetCamera`, then
`controls.update()` and `renderer.clear()` (no modelled effect). -/
def reset (st : SM) : SM := resetCamera (clearScene st)

/-- The box accumulated by `focusOnModel`'s bounding phase. -/
def focusBoundsOf (cs : List Obj) : Option Box3 :=
  (boundsPassList qualFocus Vec3.origin false cs).2

/-- `focusOnModel` (lines 173–208): collect qualifying meshes via
`traverse`; if none, return; otherwise accumulate their world-space boxes
(`computeBoundingBox` + `setFromObject` + `union`), then position the
camera at `center + (distance, distance, distance)` with
`distance = maxDim * 2`, look at the center, and copy the center into the
controls target. -/
def focusOnModel (st : SM) : SM :=
  match st.scene with
  | none => st
  | some sc =>
    let objects := collectList qualFocus sc.children
    if objects.length = 0 then st
    else
      let r := boundsPassList qualFocus Vec3.origin false sc.children
      let center := centerOfOpt r.2
      let size := sizeOfOpt r.2
      let maxDim := Max.max size.x (Max.max size.y size.z)
      let distance := maxDim * 2
      { st with
        scene := some { sc with children := r.1 },
        camera := { position := ⟨center.x + distance, center.y + distance,
                                 center.z + distance⟩,
                    lookAtTarget := center },
        controls := { target := center } }

/-- The box accumulated by `centerModel`'s bounding phase. -/
def centerBoundsOf (cs : List Obj) : Option Box3 :=
  (boundsPassList qualCenter Vec3.origin false cs).2

/-- `centerModel` (lines 214–258): if the scene handle is absent, return;
accumulate the bounds of qualifying meshes via `expandByObject`; if none
were found, return; otherwise translate every qualifying mesh by the
negative horizontal center offset (keeping `y`) and reset the controls
target to the origin. -/
def centerModel (st : SM) : SM :=
  match st.scene with
  | none => st
  | some sc =>
    if (collectList qualCenter sc.children).length = 0 then st
    else
      let r := boundsPassList qualCenter Vec3.origin false sc.children
      let center := centerOfOpt r.2
      { st with
        scene := some { sc with children := shiftList qualCenter center.x center.z r.1 },
        controls := { target := Vec3.origin } }

/-- The operations quantified over by the add/clear sequences of the
spec's testable properties. -/
inductive SceneOp where
  | add (o : Obj)
  | clear

def applyOp (st : SM) : SceneOp → SM
  | .add o => addToScene st o
  | .clear => clearScene st

def applyOps (st : SM) : List SceneOp → SM
  | [] => st
  | op :: ops => applyOps (applyOp st op) ops

/-! ### Lemmas about the embedded operations -/

theorem append_eq_nil_iff {α : Type} {l1 l2 : List α} :
    l1 ++ l2 = [] ↔ l1 = [] ∧ l2 = [] := by
  cases l1 <;> simp

mutual
/-- If no node of the subtree qualifies, the bounding pass leaves the
subtree untouched and accumulates the empty box. -/
theorem boundsPassObj_nil (q : Obj → Bool) :
    ∀ (base : Vec3) (o : Obj), obCollect q o = [] →
      boundsPassObj q base false o = (o, none)
  | base, .mk i t p g m cs => fun h => by
    rw [obCollect] at h
    rcases append_eq_nil_iff.1 h with ⟨h1, h2⟩
    have hq : q (Obj.mk i t p g m cs) = false := by
      by_contra hne
      rw [Bool.not_eq_false] at hne
      rw [if_pos hne] at h1
      exact List.cons_ne_nil _ _ h1
    have hrec := boundsPassList_nil q (Vec3.add base p) cs h2
    simp only [boundsPassObj, hq, Bool.or_false, Bool.false_or, hrec]
    cases g <;> simp [unionO]
theorem boundsPassList_nil (q : Obj → Bool) :
    ∀ (base : Vec3) (cs : List Obj), collectList q cs = [] →
      boundsPassList q base false cs = (cs, none)
  | _, [] => fun _ => rfl
  | base, c :: cs => fun h => by
    rw [collectList] at h
    rcases append_eq_nil_iff.1 h with ⟨h1, h2⟩
    simp only [boundsPassList, boundsPassObj_nil q base c h1,
      boundsPassList_nil q base cs h2, unionO]
end

mutual
/-- The bounding pass changes nothing but the `boundingBox` cache flags:
after forgetting the caches the subtree is unchanged. -/
theorem eraseCache_boundsPassObj (q : Obj → Bool) :
    ∀ (base : Vec3) (anc : Bool) (o : Obj),
      eraseCacheObj (boundsPassObj q base anc o).1 = eraseCacheObj o
  | base, anc, .mk i t p g m cs => by
    cases g with
    | none =>
      have hrec := eraseCache_boundsPassList q (Vec3.add base p)
        (anc || q (.mk i t p none m cs)) cs
      simp only [boundsPassObj, eraseCacheObj, hrec]
    | some geo =>
      by_cases hact : (anc || q (Obj.mk i t p (some geo) m cs)) = true
      · have hrec := eraseCache_boundsPassList q (Vec3.add base p) true cs
        simp only [boundsPassObj, eraseCacheObj, hact, if_true, hrec,
          Option.map, Geometry.eraseCache]
      · rw [Bool.not_eq_true] at hact
        have hrec := eraseCache_boundsPassList q (Vec3.add base p) false cs
        simp only [boundsPassObj, eraseCacheObj, hact, Bool.false_eq_true,
          if_false, hrec, Option.map, Geometry.eraseCache]
theorem eraseCache_boundsPassList (q : Obj → Bool) :
    ∀ (base : Vec3) (anc : Bool) (cs : List Obj),
      eraseCacheList (boundsPassList q base anc cs).1 = eraseCacheList cs
  | _, _, [] => rfl
  | base, anc, c :: cs => by
    simp only [boundsPassList, eraseCacheList,
      eraseCache_boundsPassObj q base anc c, eraseCache_boundsPassList q base anc cs]
end

mutual
/-- The bounding pass preserves every node's tag-filter status and
position (it only fills geometry caches). -/
theorem obPosTags_boundsPass :
    ∀ (base : Vec3) (anc : Bool) (o : Obj),
      obPosTags qualCenter (boundsPassObj qualCenter base anc o).1 =
        obPosTags qualCenter o
  | base, anc, .mk i t p g m cs => by
    have hrec := posTags_boundsPassList (Vec3.add base p)
      (anc || qualCenter (.mk i t p g m cs)) cs
    simp only [boundsPassObj, obPosTags, hrec, List.cons.injEq, and_true]
    simp [qualCenter, isMesh, isGridHelper, isAxesHelper, isLight, Obj.tag]
theorem posTags_boundsPassList :
    ∀ (base : Vec3) (anc : Bool) (cs : List Obj),
      posTagsList qualCenter (boundsPassList qualCenter base anc cs).1 =
        posTagsList qualCenter cs
  | _, _, [] => rfl
  | base, anc, c :: cs => by
    simp only [boundsPassList, posTagsList, obPosTags_boundsPass base anc c,
      posTags_boundsPassList base anc cs]
end

/-- The per-entry effect of the translation pass on `(filter, position)`. -/
def shiftEntry (cx cz : ℚ) (pr : Bool × Vec3) : Bool × Vec3 :=
  (pr.1, if pr.1 then Vec3.mk (pr.2.x - cx) pr.2.y (pr.2.z - cz) else pr.2)

mutual
/-- The translation pass subtracts `(cx, 0, cz)` from the position of
exactly the qualifying nodes. -/
theorem obPosTags_shift (cx cz : ℚ) :
    ∀ o : Obj, obPosTags qualCenter (shiftObj qualCenter cx cz o) =
      (obPosTags qualCenter o).map (shiftEntry cx cz)
  | .mk i t p g m cs => by
    have hrec := posTags_shiftList cx cz cs
    have htag : ∀ (p2 : Vec3) (cs2 : List Obj),
        qualCenter (Obj.mk i t p2 g m cs2) = qualCenter (Obj.mk i t p g m cs) := by
      intro p2 cs2
      simp [qualCenter, isMesh, isGridHelper, isAxesHelper, isLight, Obj.tag]
    by_cases hq : qualCenter (Obj.mk i t p g m cs) = true
    · simp only [shiftObj, hq, if_true, obPosTags, hrec, htag, List.map_cons,
        shiftEntry, List.cons.injEq]
    · rw [Bool.not_eq_true] at hq
      simp only [shiftObj, hq, Bool.false_eq_true, if_false, obPosTags, hrec, htag,
        List.map_cons, shiftEntry, List.cons.injEq]
theorem posTags_shiftList (cx cz : ℚ) :
    ∀ cs : List Obj, posTagsList qualCenter (shiftList qualCenter cx cz cs) =
      (posTagsList qualCenter cs).map (shiftEntry cx cz)
  | [] => rfl
  | c :: cs => by
    simp only [shiftList, posTagsList, obPosTags_shift cx cz c,
      posTags_shiftList cx cz cs, List.map_append]
end

/-- Nodes of a member subtree are nodes of the forest. -/
theorem mem_nodesList_of_mem :
    ∀ (cs : List Obj) (c : Obj), c ∈ cs → ∀ n, n ∈ obNodes c → n ∈ nodesList cs := by
  intro cs
  induction cs with
  | nil => intro c hc; cases hc
  | cons d ds ih =>
    intro c hc n hn
    rcases List.mem_cons.1 hc with rfl | hc2
    · exact List.mem_append_left _ hn
    · exact List.mem_append_right _ (ih c hc2 n hn)

/-- A subtree's root and all its descendants are among its nodes. -/
theorem self_mem_obNodes : ∀ o : Obj, o ∈ obNodes o := by
  intro o
  cases o with
  | mk i t p g m cs => simp [obNodes]

theorem mem_obNodes_of_mem_children :
    ∀ (o : Obj) (n : Obj), n ∈ nodesList o.children → n ∈ obNodes o := by
  intro o n h
  cases o with
  | mk i t p g m cs =>
    rw [obNodes]
    exact List.mem_cons_of_mem _ h

/-- Unfolded form of `clearScene` on a present scene handle. -/
theorem clearScene_some (st : SM) (sc : Scene) (h : st.scene = some sc) :
    clearScene st =
      { st with
        scene := some { sc with children :=
          (if (sc.children.filter (fun o => isPermanent o)).length = 0 then
            sc.children.filter (fun o => isPermanent o) ++ defaultPermanentChildren
          else sc.children.filter (fun o => isPermanent o)) },
        releasedNodes := st.releasedNodes ++
          (sc.children.filter (fun o => !isPermanent o)).map Obj.id,
        disposedResources := st.disposedResources ++
          (sc.children.filter (fun o => !isPermanent o)).flatMap disposeResourceIds } := by
  rw [clearScene, h]
  by_cases h0 : (sc.children.filter (fun o => isPermanent o)).length = 0 <;>
    simp [h0, initSceneElements]

/-- Unfolded form of `clearScene` on an absent scene handle. -/
theorem clearScene_none (st : SM) (h : st.scene = none) :
    clearScene st =
      { st with scene := some { background := defaultBackground,
                                children := defaultPermanentChildren } } := by
  rw [clearScene, h]
  simp [initSceneElements]

/-- Every default furniture node is permanent. -/
theorem defaultPermanent_all : ∀ o ∈ defaultPermanentChildren, isPermanent o = true := by
  decide

/-- After `clearScene`, every direct child of the scene is permanent. -/
theorem clearScene_children_permanent (st : SM) :
    ∀ o ∈ sceneChildren (clearScene st), isPermanent o = true := by
  cases hsc : st.scene with
  | none =>
    rw [clearScene_none st hsc]
    intro o ho
    exact defaultPermanent_all o ho
  | some sc =>
    rw [clearScene_some st sc hsc]
    intro o ho
    simp only [sceneChildren] at ho
    by_cases h0 : (sc.children.filter (fun o => isPermanent o)).length = 0
    · rw [if_pos h0] at ho
      rcases List.mem_append.1 ho with hf | hd
      · exact (List.mem_filter.1 hf).2
      · exact defaultPermanent_all o hd
    · rw [if_neg h0] at ho
      exact (List.mem_filter.1 ho).2

/-- `clearScene` always leaves a present scene handle. -/
theorem clearScene_scene_isSome (st : SM) : (clearScene st).scene.isSome := by
  cases hsc : st.scene with
  | none => rw [clearScene_none st hsc]; rfl
  | some sc => rw [clearScene_some st sc hsc]; rfl

/-- After `clearScene`, the scene has at least one direct child. -/
theorem clearScene_children_ne_nil (st : SM) (sc1 : Scene)
    (h : (clearScene st).scene = some sc1) : sc1.children ≠ [] := by
  cases hsc : st.scene with
  | none =>
    rw [clearScene_none st hsc] at h
    have h2 : sc1 = { background := defaultBackground,
                      children := defaultPermanentChildren } :=
      (Option.some.inj h).symm
    simp [h2, defaultPermanentChildren]
  | some sc =>
    rw [clearScene_some st sc hsc] at h
    have h2 := (Option.some.inj h)
    by_cases h0 : (sc.children.filter (fun o => isPermanent o)).length = 0
    · rw [if_pos h0] at h2
      intro hnil
      rw [← h2] at hnil
      simp only [Scene.mk.injEq] at hnil
      simp [defaultPermanentChildren] at hnil
    · rw [if_neg h0] at h2
      intro hnil
      rw [← h2] at hnil
      simp only [Scene.mk.injEq] at hnil
      exact h0 (by simp [hnil])

/-- A state whose scene holds only permanent children (at least one) is a
fixed point of `clearScene`. -/
theorem clearScene_fixed (st : SM) (sc : Scene) (h : st.scene = some sc)
    (hall : ∀ o ∈ sc.children, isPermanent o = true) (hne : sc.children ≠ []) :
    clearScene st = st := by
  have hfilter : sc.children.filter (fun o => isPermanent o) = sc.children :=
    List.filter_eq_self.2 hall
  have hfilterneg : sc.children.filter (fun o => !isPermanent o) = [] := by
    rw [List.filter_eq_nil_iff]
    intro o ho
    simp [hall o ho]
  rw [clearScene_some st sc h, hfilter, hfilterneg]
  rw [if_neg (by simpa [List.length_eq_zero] using hne)]
  rw [← h]
  simp

/-- `clearScene` is idempotent on every state. -/
theorem clearScene_idem (st : SM) : clearScene (clearScene st) = clearScene st := by
  rcases Option.isSome_iff_exists.1 (clearScene_scene_isSome st) with ⟨sc1, hsc1⟩
  refine clearScene_fixed _ sc1 hsc1 ?_ (clearScene_children_ne_nil st sc1 hsc1)
  intro o ho
  exact clearScene_children_permanent st o (by simp [sceneChildren, hsc1, ho])

theorem applyOp_scene_isSome (st : SM) (op : SceneOp) (h : st.scene.isSome) :
    ((applyOp st op).scene).isSome := by
  cases op with
  | add o =>
    cases hsc : st.scene with
    | none => rw [hsc] at h; simp at h
    | some sc => simp [applyOp, addToScene, hsc]
  | clear => exact clearScene_scene_isSome st

theorem applyOps_scene_isSome (ops : List SceneOp) :
    ∀ st : SM, st.scene.isSome → ((applyOps st ops).scene).isSome := by
  induction ops with
  | nil => intro st h; exact h
  | cons op ops ih => intro st h; exact ih _ (applyOp_scene_isSome st op h)

/-! ### Concrete fixtures used by witnesses and counterexamples -/

/-- The box `[-1,1]³`. -/
def unitBox : Box3 := ⟨⟨-1, -1, -1⟩, ⟨1, 1, 1⟩⟩

/-- A content mesh with a geometry and two materials, one textured. -/
def meshA : Obj :=
  .mk 10 .mesh Vec3.origin (some ⟨100, unitBox, false⟩)
    (.many [⟨200, some 300⟩, ⟨201, none⟩]) []

/-- A content mesh whose world box is `[-1,1]³` and whose cache is unfilled. -/
def meshB : Obj := .mk 11 .mesh Vec3.origin (some ⟨110, unitBox, false⟩) .undef []

/-- A content mesh whose world box is `[4,6]³` (center `(5,5,5)`). -/
def meshOff : Obj :=
  .mk 12 .mesh Vec3.origin (some ⟨120, ⟨⟨4, 4, 4⟩, ⟨6, 6, 6⟩⟩, false⟩) .undef []

/-- A content mesh at position `(5, 3, -2)` with local box `[-1,1]³`. -/
def meshC : Obj := .mk 13 .mesh ⟨5, 3, -2⟩ (some ⟨130, unitBox, false⟩) .undef []

/-- A textured content mesh used nested below other nodes. -/
def meshNested : Obj :=
  .mk 21 .mesh Vec3.origin (some ⟨210, unitBox, false⟩) (.one ⟨220, some 230⟩) []

/-- A content group (no geometry, no material) holding `meshNested`. -/
def groupG : Obj := .mk 20 .group Vec3.origin none .undef [meshNested]

/-- The scene obtained by adding `meshA` to the fresh manager's scene. -/
def sceneA : Scene :=
  sceneAdd { background := defaultBackground, children := defaultPermanentChildren } meshA

/-! ### The claims -/

/-- Claim C1: for every sequence of `addToScene` and `clearContent`
(`clearScene`) operations, after a `clearScene` call the scene graph
contains every direct child that was permanent (light, grid, axes) before
the call, contains zero content direct children (in particular none of the
previously-added content nodes, which `addToScene` inserts as direct
children), and every removed content node has had its resources released
into the disposal log.  "Nodes" here are the entries of the partition the
spec describes, i.e. the scene's direct children. -/
theorem claim_c1_clear_partition (ops : List SceneOp) :
    (∀ o ∈ sceneChildren (applyOps initState ops), isPermanent o = true →
        o ∈ sceneChildren (clearScene (applyOps initState ops))) ∧
    (∀ o ∈ sceneChildren (clearScene (applyOps initState ops)), isPermanent o = true) ∧
    (∀ o ∈ sceneChildren (applyOps initState ops), isPermanent o = false →
        o ∉ sceneChildren (clearScene (applyOps initState ops)) ∧
        ∀ r ∈ disposeResourceIds o,
          r ∈ (clearScene (applyOps initState ops)).disposedResources) := by
  obtain ⟨sc, hsc⟩ :=
    Option.isSome_iff_exists.1 (applyOps_scene_isSome ops initState rfl)
  have hch : sceneChildren (applyOps initState ops) = sc.children := by
    simp [sceneChildren, hsc]
  refine ⟨?_, clearScene_children_permanent _, ?_⟩
  · intro o ho hperm
    rw [hch] at ho
    rw [clearScene_some _ sc hsc]
    simp only [sceneChildren]
    have hmem : o ∈ sc.children.filter (fun o => isPermanent o) :=
      List.mem_filter.2 ⟨ho, hperm⟩
    by_cases h0 : (sc.children.filter (fun o => isPermanent o)).length = 0
    · rw [if_pos h0]; exact List.mem_append_left _ hmem
    · rw [if_neg h0]; exact hmem
  · intro o ho hcontent
    constructor
    · intro habs
      have := clearScene_children_permanent (applyOps initState ops) o habs
      rw [hcontent] at this
      exact Bool.false_ne_true this
    · intro r hr
      rw [clearScene_some _ sc hsc]
      refine List.mem_append_right _ (List.mem_flatMap.2 ⟨o, ?_, hr⟩)
      refine List.mem_filter.2 ⟨hch ▸ ho, ?_⟩
      simp [hcontent]

/-- Witness for C1: in the run `addToScene meshA; clearScene`, the grid
helper is a permanent child before the clear and survives it. -/
theorem claim_c1_witness :
    gridHelperNode ∈ sceneChildren (applyOps initState [SceneOp.add meshA]) ∧
    isPermanent gridHelperNode = true ∧
    gridHelperNode ∈ sceneChildren (clearScene (applyOps initState [SceneOp.add meshA])) :=
  ⟨by decide, by decide,
    (claim_c1_clear_partition [SceneOp.add meshA]).1 gridHelperNode
      (by decide) (by decide)⟩

/-- Claim C4: `clearContent` (`clearScene`) is idempotent — calling it
twice in a row produces exactly the state of calling it once — and, when
the scene's direct children have distinct identities, no node is passed
through the disposal block more than once across the two calls (the
release count per node in the log grown by the two calls is at most 1). -/
theorem claim_c4_clear_idempotent (st : SM) :
    clearScene (clearScene st) = clearScene st ∧
    (∀ sc, st.scene = some sc → (sc.children.map Obj.id).Nodup →
      ∀ n, (((clearScene (clearScene st)).releasedNodes).drop
              st.releasedNodes.length).count n ≤ 1) := by
  refine ⟨clearScene_idem st, ?_⟩
  intro sc hsc hnd n
  rw [clearScene_idem st, clearScene_some st sc hsc]
  simp only [List.drop_left]
  have hsub : List.Sublist
      ((sc.children.filter (fun o => !isPermanent o)).map Obj.id)
      (sc.children.map Obj.id) :=
    (List.filter_sublist _).map Obj.id
  exact List.nodup_iff_count_le_one.1 (hnd.sublist hsub) n

/-- Witness for C4: on the state with `meshA` added, the direct-children
identities are distinct and the node of `meshA` (id 10) is released at
most once across the two `clearScene` calls. -/
theorem claim_c4_witness :
    (addToScene initState meshA).scene = some sceneA ∧
    (sceneA.children.map Obj.id).Nodup ∧
    (((clearScene (clearScene (addToScene initState meshA))).releasedNodes).drop
        (addToScene initState meshA).releasedNodes.length).count 10 ≤ 1 :=
  ⟨rfl, by decide,
    (claim_c4_clear_idempotent (addToScene initState meshA)).2 sceneA rfl (by decide) 10⟩

/-- Claim C6: invoking `clearScene` when the scene handle is absent does
not raise (the operation is total in the model, mirroring the source's
guarded recovery branch) and leaves a scene holding exactly the default
permanent set — grid helper, axes helper, ambient light, directional
light — with the default background, no content children, and no change
to the camera, the controls or the disposal logs. -/
theorem claim_c6_missing_handle (st : SM) (h : st.scene = none) :
    (clearScene st).scene = some { background := defaultBackground,
                                   children := defaultPermanentChildren } ∧
    (sceneChildren (clearScene st)).map Obj.tag =
      [Tag.grid, Tag.axes, Tag.light, Tag.light] ∧
    (∀ o ∈ sceneChildren (clearScene st), isPermanent o = true) ∧
    (clearScene st).camera = st.camera ∧
    (clearScene st).controls = st.controls ∧
    (clearScene st).releasedNodes = st.releasedNodes ∧
    (clearScene st).disposedResources = st.disposedResources := by
  rw [clearScene_none st h]
  refine ⟨rfl, rfl, ?_, rfl, rfl, rfl, rfl⟩
  intro o ho
  exact defaultPermanent_all o (by simpa [sceneChildren] using ho)

/-- Witness for C6: applied to the initial state with its scene handle
removed. -/
theorem claim_c6_witness :
    ({ initState with scene := none } : SM).scene = none ∧
    (clearScene { initState with scene := none }).scene =
      some { background := defaultBackground, children := defaultPermanentChildren } :=
  ⟨rfl, (claim_c6_missing_handle { initState with scene := none } rfl).1⟩

/-- Claim C9: `setTopView` always produces the pose `(0,20,0)` looking at
the origin and `setPerspectiveView` always produces `(10,10,10)` looking
at the origin, for every prior camera state; the resulting pose is
therefore independent of how the previous state was reached. -/
theorem claim_c9_preset_poses (st st2 : SM) :
    (setTopView st).camera =
      { position := ⟨0, 20, 0⟩, lookAtTarget := Vec3.origin } ∧
    (setPerspectiveView st).camera =
      { position := ⟨10, 10, 10⟩, lookAtTarget := Vec3.origin } ∧
    (setTopView st).camera = (setTopView st2).camera ∧
    (setPerspectiveView st).camera = (setPerspectiveView st2).camera :=
  ⟨rfl, rfl, rfl, rfl⟩

/-- The scene obtained by adding `meshB` to the fresh manager's scene. -/
def sceneB : Scene :=
  sceneAdd { background := defaultBackground, children := defaultPermanentChildren } meshB

/-- Claim C8: on a scene with zero qualifying content nodes (the
`traverse` collection of `focusOnModel` is empty), the content-bounds
computation yields the empty bounding volume and `focusOnModel` returns
with the whole state — in particular camera position, look-at point and
controls target — unchanged. -/
theorem claim_c8_empty_bounds (st : SM) (sc : Scene) (h : st.scene = some sc)
    (hq : collectList qualFocus sc.children = []) :
    focusBoundsOf sc.children = none ∧ focusOnModel st = st := by
  constructor
  · rw [focusBoundsOf, boundsPassList_nil qualFocus Vec3.origin sc.children hq]
  · simp [focusOnModel, h, hq]

/-- Witness for C8: the fresh manager's scene (furniture only) has no
qualifying content. -/
theorem claim_c8_witness :
    initState.scene = some { background := defaultBackground,
                             children := defaultPermanentChildren } ∧
    collectList qualFocus defaultPermanentChildren = [] ∧
    focusBoundsOf defaultPermanentChildren = none ∧
    focusOnModel initState = initState := by
  have h := claim_c8_empty_bounds initState
    { background := defaultBackground, children := defaultPermanentChildren }
    rfl (by decide)
  exact ⟨rfl, by decide, h.1, h.2⟩

/-- Claim C3: on any scene whose content bounds (as accumulated by
`focusOnModel`) are the box with min `(-1,-1,-1)` and max `(1,1,1)`,
`focusOnModel` sets the camera position to `(4,4,4)` — following
`center + (distance, distance, distance)` with
`distance = maxDim * 2 = 4` — and both the camera look-at point and the
controls target to the center `(0,0,0)`. -/
theorem claim_c3_focus_formula (st : SM) (sc : Scene) (h : st.scene = some sc)
    (hb : focusBoundsOf sc.children = some ⟨⟨-1, -1, -1⟩, ⟨1, 1, 1⟩⟩) :
    (focusOnModel st).camera.position = ⟨4, 4, 4⟩ ∧
    (focusOnModel st).camera.lookAtTarget = Vec3.origin ∧
    (focusOnModel st).controls.target = Vec3.origin := by
  have hne : collectList qualFocus sc.children ≠ [] := by
    intro hnil
    rw [focusBoundsOf, boundsPassList_nil qualFocus Vec3.origin sc.children hnil] at hb
    exact Option.noConfusion hb
  rw [focusBoundsOf] at hb
  simp only [focusOnModel, h]
  rw [if_neg (fun h0 => hne (List.length_eq_zero.1 h0))]
  simp only [hb, centerOfOpt, sizeOfOpt, Box3.getCenter, Box3.getSize]
  norm_num [Vec3.origin, Vec3.mk.injEq]

/-- Witness for C3: a single unit-box mesh added to the fresh scene. -/
theorem claim_c3_witness :
    (addToScene initState meshB).scene = some sceneB ∧
    focusBoundsOf sceneB.children = some ⟨⟨-1, -1, -1⟩, ⟨1, 1, 1⟩⟩ ∧
    (focusOnModel (addToScene initState meshB)).camera.position = ⟨4, 4, 4⟩ ∧
    (focusOnModel (addToScene initState meshB)).camera.lookAtTarget = Vec3.origin ∧
    (focusOnModel (addToScene initState meshB)).controls.target = Vec3.origin := by
  have hb : focusBoundsOf sceneB.children = some ⟨⟨-1, -1, -1⟩, ⟨1, 1, 1⟩⟩ := by
    simp +decide [sceneB, sceneAdd, defaultPermanentChildren, gridHelperNode,
      axesHelperNode, ambientLightNode, directionalLightNode, meshB, unitBox,
      focusBoundsOf, boundsPassList, boundsPassObj, qualFocus, isMesh, isGridHelper,
      isAxesHelper, Obj.tag, Obj.id, unionO, Box3.translate, Vec3.add, Vec3.origin]
  have h3 := claim_c3_focus_formula (addToScene initState meshB) sceneB rfl hb
  exact ⟨rfl, hb, h3.1, h3.2.1, h3.2.2⟩

/-- `clearScene` never touches the controls. -/
theorem clearScene_controls (st : SM) : (clearScene st).controls = st.controls := by
  cases hsc : st.scene with
  | none => rw [clearScene_none st hsc]
  | some sc => rw [clearScene_some st sc hsc]

/-- The scene obtained by adding `meshOff` to the fresh manager's scene. -/
def sceneOff : Scene :=
  sceneAdd { background := defaultBackground, children := defaultPermanentChildren } meshOff

/-- Counterexample to C2: starting from the fresh manager, add a mesh
whose bounds center is `(5,5,5)` and call `focusOnModel` (which sets both
the look-at point and the controls target to `(5,5,5)`), then call
`setTopView`.  `setTopView` reassigns the camera pose (`lookAt (0,0,0)`)
but never writes `controls.target`, so after this preset operation the
controls target `(5,5,5)` differs from the camera's look-at point
`(0,0,0)` — refuting the claimed invariant. -/
theorem claim_c2_counterexample :
    (setTopView (focusOnModel (addToScene initState meshOff))).controls.target ≠
      (setTopView (focusOnModel (addToScene initState meshOff))).camera.lookAtTarget := by
  simp +decide [meshOff, setTopView, focusOnModel, addToScene, initState, sceneAdd,
    defaultPermanentChildren, gridHelperNode, axesHelperNode, ambientLightNode,
    directionalLightNode, collectList, obCollect, qualFocus, isMesh, isGridHelper,
    isAxesHelper, Obj.tag, Obj.id, boundsPassList, boundsPassObj, unionO,
    Box3.translate, Vec3.add, Vec3.origin, centerOfOpt, sizeOfOpt, Box3.getCenter,
    Box3.getSize, Box3.union, Vec3.mk.injEq]
  norm_num

/-- Claim C2 (amended): only `focusOnModel` synchronizes the two points —
on a scene with qualifying content it sets the controls target and the
camera look-at point to the same value (the bounds center).  `setTopView`,
`setPerspectiveView` and `reset` set the camera look-at point to the
origin but leave the controls target unchanged, and `centerModel` sets
the controls target to the origin but leaves the camera look-at point
unchanged, so after those operations the two points need not be equal. -/
theorem claim_c2_amended_target_sync (st : SM) :
    ((setTopView st).camera.lookAtTarget = Vec3.origin ∧
      (setTopView st).controls.target = st.controls.target) ∧
    ((setPerspectiveView st).camera.lookAtTarget = Vec3.origin ∧
      (setPerspectiveView st).controls.target = st.controls.target) ∧
    ((reset st).camera.lookAtTarget = Vec3.origin ∧
      (reset st).controls.target = st.controls.target) ∧
    (centerModel st).camera.lookAtTarget = st.camera.lookAtTarget ∧
    (∀ sc, st.scene = some sc → collectList qualFocus sc.children ≠ [] →
      (focusOnModel st).controls.target = (focusOnModel st).camera.lookAtTarget) ∧
    (∀ sc, st.scene = some sc → collectList qualCenter sc.children ≠ [] →
      (centerModel st).controls.target = Vec3.origin) := by
  refine ⟨⟨rfl, rfl⟩, ⟨rfl, rfl⟩, ⟨rfl, ?_⟩, ?_, ?_, ?_⟩
  · show (clearScene st).controls.target = st.controls.target
    rw [clearScene_controls st]
  · cases hsc : st.scene with
    | none => rw [centerModel, hsc]
    | some sc =>
      simp only [centerModel, hsc]
      split <;> rfl
  · intro sc h hne
    simp only [focusOnModel, h]
    rw [if_neg (fun h0 => hne (List.length_eq_zero.1 h0))]
  · intro sc h hne
    simp only [centerModel, h]
    rw [if_neg (fun h0 => hne (List.length_eq_zero.1 h0))]

/-- Witness for C2 (amended): `focusOnModel` on the `meshOff` scene does
equate the two points. -/
theorem claim_c2_witness :
    (addToScene initState meshOff).scene = some sceneOff ∧
    collectList qualFocus sceneOff.children ≠ [] ∧
    (focusOnModel (addToScene initState meshOff)).controls.target =
      (focusOnModel (addToScene initState meshOff)).camera.lookAtTarget :=
  ⟨rfl, by decide,
    (claim_c2_amended_target_sync (addToScene initState meshOff)).2.2.2.2.1
      sceneOff rfl (by decide)⟩

/-- Counterexample to C5: on a scene holding one content mesh whose
geometry has no `boundingBox` cache yet, the bounds pass of
`focusOnModel` (lines 185–190, in particular
`object.geometry.computeBoundingBox()`) returns the mesh with its
geometry's `boundingBox` attribute newly filled — the geometry record has
been mutated, so the traversal is not read-only as claimed. -/
theorem claim_c5_counterexample :
    (boundsPassList qualFocus Vec3.origin false [meshB]).1 =
      [Obj.mk 11 Tag.mesh Vec3.origin (some ⟨110, unitBox, true⟩) MatField.undef []] ∧
    (boundsPassList qualFocus Vec3.origin false [meshB]).1 ≠ [meshB] := by
  constructor
  · decide
  · decide

/-- Claim C5 (amended): the bounding-volume pass used by `focusOnModel`
and `centerModel` (any node filter `q`) mutates no node transform and no
geometry vertex data — after erasing the `boundingBox` cache flags the
scene is exactly the input.  Its only side effect is filling the cached
bounding boxes of the geometries in the visited content subtrees. -/
theorem claim_c5_amended_bounds_read_only (q : Obj → Bool) (base : Vec3)
    (anc : Bool) (cs : List Obj) :
    eraseCacheList (boundsPassList q base anc cs).1 = eraseCacheList cs :=
  eraseCache_boundsPassList q base anc cs

/-- The scene obtained by adding `meshC` to the fresh manager's scene. -/
def sceneC : Scene :=
  sceneAdd { background := defaultBackground, children := defaultPermanentChildren } meshC

/-- Claim C7: on any scene whose content bounds (as accumulated by
`centerModel`) have center `(5, 3, -2)`, `centerModel` shifts each
qualifying content node's position by `-5` in `x` and `+2` in `z` while
keeping its `y`, leaves every other node's position unchanged (in
particular the permanent nodes), and sets the controls target to the
origin. -/
theorem claim_c7_center_translation (st : SM) (sc : Scene) (h : st.scene = some sc)
    (b : Box3) (hb : centerBoundsOf sc.children = some b)
    (hc : b.getCenter = ⟨5, 3, -2⟩) :
    ∃ sc2, (centerModel st).scene = some sc2 ∧
      posTagsList qualCenter sc2.children =
        (posTagsList qualCenter sc.children).map (fun pr =>
          (pr.1, if pr.1 then Vec3.mk (pr.2.x - 5) pr.2.y (pr.2.z + 2) else pr.2)) ∧
      (centerModel st).controls.target = Vec3.origin := by
  have hne : collectList qualCenter sc.children ≠ [] := by
    intro hnil
    rw [centerBoundsOf, boundsPassList_nil qualCenter Vec3.origin sc.children hnil] at hb
    exact Option.noConfusion hb
  rw [centerBoundsOf] at hb
  simp only [centerModel, h]
  rw [if_neg (fun h0 => hne (List.length_eq_zero.1 h0))]
  refine ⟨_, rfl, ?_, rfl⟩
  simp only [hb, centerOfOpt, hc]
  have hfun : shiftEntry 5 (-2) = (fun pr : Bool × Vec3 =>
      (pr.1, if pr.1 then Vec3.mk (pr.2.x - 5) pr.2.y (pr.2.z + 2) else pr.2)) := by
    funext pr
    simp [shiftEntry, sub_neg_eq_add]
  rw [posTags_shiftList, posTags_boundsPassList, hfun]

/-- Witness for C7: a unit-box mesh positioned at `(5, 3, -2)`. -/
theorem claim_c7_witness :
    (addToScene initState meshC).scene = some sceneC ∧
    centerBoundsOf sceneC.children = some ⟨⟨4, 2, -3⟩, ⟨6, 4, -1⟩⟩ ∧
    Box3.getCenter ⟨⟨4, 2, -3⟩, ⟨6, 4, -1⟩⟩ = ⟨5, 3, -2⟩ ∧
    ∃ sc2, (centerModel (addToScene initState meshC)).scene = some sc2 ∧
      posTagsList qualCenter sc2.children =
        (posTagsList qualCenter sceneC.children).map (fun pr =>
          (pr.1, if pr.1 then Vec3.mk (pr.2.x - 5) pr.2.y (pr.2.z + 2) else pr.2)) ∧
      (centerModel (addToScene initState meshC)).controls.target = Vec3.origin := by
  have hb : centerBoundsOf sceneC.children = some ⟨⟨4, 2, -3⟩, ⟨6, 4, -1⟩⟩ := by
    simp +decide [sceneC, sceneAdd, defaultPermanentChildren, gridHelperNode,
      axesHelperNode, ambientLightNode, directionalLightNode, meshC, unitBox,
      centerBoundsOf, boundsPassList, boundsPassObj, qualCenter, isMesh,
      isGridHelper, isAxesHelper, isLight, Obj.tag, Obj.id, unionO,
      Box3.translate, Vec3.add, Vec3.origin]
    norm_num
  have hc : Box3.getCenter ⟨⟨4, 2, -3⟩, ⟨6, 4, -1⟩⟩ = (⟨5, 3, -2⟩ : Vec3) := by
    norm_num [Box3.getCenter, Vec3.mk.injEq]
  exact ⟨rfl, hb, hc,
    claim_c7_center_translation (addToScene initState meshC) sceneC rfl _ hb hc⟩

/-- The state obtained by adding the content group `groupG` (which holds
the nested mesh `meshNested`) to the fresh manager. -/
def stG : SM := addToScene initState groupG

/-- Counterexample to C10: `meshNested` is a content node nested beneath
the content group `groupG` (so not a direct child of the root).
`clearScene` removes `groupG` — and `meshNested` leaves the scene graph
with it, its geometry (handle 210) never disposed — so the nested node
does not remain in the graph as claimed. -/
theorem claim_c10_counterexample :
    meshNested ∈ nodesList (sceneChildren stG) ∧
    (210 : Nat) ∉ (clearScene stG).disposedResources ∧
    meshNested ∉ nodesList (sceneChildren (clearScene stG)) := by
  refine ⟨by decide, by decide, by decide⟩

/-- Claim C10 (amended): `clearScene` partitions and removes only the
direct children of the root: the resources it disposes are exactly the
own resources of the removed content direct children (a nested node's
resources are never passed to the disposal block), and a node nested
beneath a permanent direct child remains in the graph unchanged.  A
content node nested beneath a removed content direct child, however,
leaves the graph together with its ancestor — without being disposed. -/
theorem claim_c10_amended_direct_children_only (st : SM) (sc : Scene)
    (h : st.scene = some sc) :
    (clearScene st).disposedResources = st.disposedResources ++
      (sc.children.filter (fun o => !isPermanent o)).flatMap disposeResourceIds ∧
    (∀ c ∈ sc.children, isPermanent c = true →
      c ∈ sceneChildren (clearScene st) ∧
      ∀ n ∈ nodesList c.children, n ∈ nodesList (sceneChildren (clearScene st))) := by
  constructor
  · rw [clearScene_some st sc h]
  · intro c hc hperm
    have hmem : c ∈ sc.children.filter (fun o => isPermanent o) :=
      List.mem_filter.2 ⟨hc, hperm⟩
    have hkept : c ∈ sceneChildren (clearScene st) := by
      rw [clearScene_some st sc h]
      simp only [sceneChildren]
      by_cases h0 : (sc.children.filter (fun o => isPermanent o)).length = 0
      · rw [if_pos h0]; exact List.mem_append_left _ hmem
      · rw [if_neg h0]; exact hmem
    refine ⟨hkept, ?_⟩
    intro n hn
    exact mem_nodesList_of_mem _ c hkept n (mem_obNodes_of_mem_children c n hn)

/-- A grid helper that owns a nested content mesh, and the state holding it. -/
def gridWithChild : Obj := .mk 30 .grid Vec3.origin none .undef [meshNested]

/-- The state obtained by adding `gridWithChild` to the fresh manager. -/
def stP : SM := addToScene initState gridWithChild

/-- The scene of `stP`. -/
def sceneP : Scene :=
  sceneAdd { background := defaultBackground, children := defaultPermanentChildren }
    gridWithChild

/-- Witness for C10 (amended): a mesh nested beneath a permanent (grid)
direct child survives `clearScene`. -/
theorem claim_c10_witness :
    stP.scene = some sceneP ∧
    gridWithChild ∈ sceneP.children ∧
    isPermanent gridWithChild = true ∧
    meshNested ∈ nodesList gridWithChild.children ∧
    meshNested ∈ nodesList (sceneChildren (clearScene stP)) :=
  ⟨rfl, by decide, by decide, by decide,
    ((claim_c10_amended_direct_children_only stP sceneP rfl).2 gridWithChild
      (by decide) (by decide)).2 meshNested (by decide)⟩
